import Mathlib

/-!
Shallow embedding of `src/generic/timer_irq.c` (Klipper's generic
interrupt-based timer helper functions).

Machine integers: the C code works on `uint32_t` / `int32_t`.  We embed
`uint32_t` values as `Nat` reduced modulo `2^32` and the signed
reinterpretation `(int32_t)x` as `toInt32 : Nat → Int`.

External collaborators (`timer_read_time`, `sched_timer_dispatch`,
`timer_get_next`, `irq_wait`, `shutdown`, `stats_note_sleep`) are opaque to
this translation unit; they are modelled as an environment of streams: the
i-th call to `timer_read_time` returns the i-th element of the clock
stream, and likewise for the queue-dispatch stream.  Each stream value is
reduced mod 2^32, reflecting the collaborators' `uint32_t` return type.
`shutdown` longjmps and never returns, so it is a terminal constructor of
the result type: a run that reaches it invokes it exactly once and
produces no normal return value.  The two unbounded C loops (the dispatch
`for (;;)` and the spin-wait `while`) are given explicit fuel; fuel
exhaustion is a distinguished `outOfFuel` outcome, never confused with a
normal return.

The build-time constant `CONFIG_CLOCK_FREQ` is a `uint32_t` configuration
value; all definitions are parameterized by `freq : Nat`.
-/

/-- `2^32`, the modulus of `uint32_t` arithmetic. -/
def U32MOD : Nat := 4294967296

/-- `2^31`, the boundary between non-negative and negative `int32_t`. -/
def U32HALF : Nat := 2147483648

/-- Reduction of a natural number to its `uint32_t` value. -/
def mod32 (a : Nat) : Nat := a % U32MOD

/-- `uint32_t` addition. -/
def add32 (a b : Nat) : Nat := (a + b) % U32MOD

/-- `uint32_t` subtraction `a - b` (wrapping). -/
def sub32 (a b : Nat) : Nat := (a + (U32MOD - b % U32MOD)) % U32MOD

/-- Reinterpretation of a `uint32_t` bit pattern as `int32_t`
(twos-complement), i.e. the C cast `(int32_t)a`. -/
def toInt32 (a : Nat) : Int :=
  if a % U32MOD < U32HALF then (a % U32MOD : Int) else (a % U32MOD : Int) - U32MOD

/-- C: `uint32_t timer_from_us(uint32_t us) { return us * (CONFIG_CLOCK_FREQ / 1000000); }`
The division is integer division of the build-time constant. -/
def timer_from_us (freq us : Nat) : Nat :=
  (us * (freq / 1000000)) % U32MOD

/-- C: `uint8_t timer_is_before(uint32_t time1, uint32_t time2) { return (int32_t)(time1 - time2) < 0; }` -/
def timer_is_before (time1 time2 : Nat) : Bool :=
  toInt32 (sub32 time1 time2) < 0

/-- C: `#define TIMER_IDLE_REPEAT_TICKS timer_from_us(500)` -/
def TIMER_IDLE_REPEAT_TICKS (freq : Nat) : Nat := timer_from_us freq 500

/-- C: `#define TIMER_REPEAT_TICKS timer_from_us(100)` -/
def TIMER_REPEAT_TICKS (freq : Nat) : Nat := timer_from_us freq 100

/-- C: `#define TIMER_MIN_TRY_TICKS timer_from_us(1)` -/
def TIMER_MIN_TRY_TICKS (freq : Nat) : Nat := timer_from_us freq 1

/-- C: `#define TIMER_DEFER_REPEAT_TICKS timer_from_us(5)` -/
def TIMER_DEFER_REPEAT_TICKS (freq : Nat) : Nat := timer_from_us freq 5

/-- Environment of external collaborators of `timer_dispatch_many`: the
i-th call to `sched_timer_dispatch` returns `sched i`, the i-th call to
`timer_read_time` returns `clock i` (each reduced mod 2^32 at the call
site, reflecting the `uint32_t` return type). -/
structure Env where
  sched : Nat → Nat
  clock : Nat → Nat

/-- Observable state threaded through a dispatch run: the `timer_repeat_until`
global, plus the number of calls made so far to `sched_timer_dispatch`
(`schedIdx`) and to `timer_read_time` (`clockIdx`). -/
structure TimerState where
  timer_repeat_until : Nat
  schedIdx : Nat
  clockIdx : Nat
deriving Repr, DecidableEq

/-- Outcome of a dispatch run.  `shutdown` models the noreturn C
`shutdown(reason)` call: it terminates the run at the point of invocation,
so a run whose result is `shutdown` invoked it exactly once and produced
no normal return value.  `outOfFuel` marks exhaustion of the explicit
fuel bounding the unbounded C loops. -/
inductive DispatchResult where
  | returned (next : Nat) (s : TimerState)
  | shutdown (reason : String) (s : TimerState)
  | outOfFuel (s : TimerState)
deriving Repr, DecidableEq

/-- C `force_defer(next)`: read the time; if `next + timer_from_us(1000)`
is already before it, shutdown; otherwise re-arm `timer_repeat_until` to
`now + TIMER_REPEAT_TICKS` and return `now + TIMER_DEFER_REPEAT_TICKS`. -/
def force_defer (freq : Nat) (env : Env) (next : Nat) (s : TimerState) :
    DispatchResult :=
  let now := mod32 (env.clock s.clockIdx)
  let s1 : TimerState := { s with clockIdx := s.clockIdx + 1 }
  if timer_is_before (add32 next (timer_from_us freq 1000)) now then
    .shutdown "Rescheduled timer in the past" s1
  else
    .returned (add32 now (TIMER_DEFER_REPEAT_TICKS freq))
      { s1 with timer_repeat_until := add32 now (TIMER_REPEAT_TICKS freq) }

/-- C spin-wait `while (unlikely(diff > 0)) diff = next - timer_read_time();`
executed with interrupts enabled.  `diff` is the signed difference computed
by the caller; the loop consumes one clock reading per iteration.
Returns `none` on fuel exhaustion while the deadline is still ahead. -/
def spin_wait (env : Env) (next : Nat) (fuel : Nat) (diff : Int)
    (s : TimerState) : Option TimerState :=
  if diff ≤ 0 then some s
  else
    match fuel with
    | 0 => none
    | Nat.succ fuel1 =>
      let t := mod32 (env.clock s.clockIdx)
      spin_wait env next fuel1 (toInt32 (sub32 next t))
        { s with clockIdx := s.clockIdx + 1 }

/-- Body of the C `for (;;)` loop of `timer_dispatch_many`, with `tru` the
value of `timer_repeat_until` read once at function entry (the C local
`tru`).  Each iteration: dispatch the next software timer, read the time,
and take one of the three exits (return-to-hardware, force-defer,
spin-wait-and-loop). -/
def dispatch_loop (freq : Nat) (env : Env) (tru : Nat)
    (fuel spinFuel : Nat) (s : TimerState) : DispatchResult :=
  match fuel with
  | 0 => .outOfFuel s
  | Nat.succ fuel1 =>
    let next := mod32 (env.sched s.schedIdx)
    let s1 : TimerState := { s with schedIdx := s.schedIdx + 1 }
    let now := mod32 (env.clock s1.clockIdx)
    let s2 : TimerState := { s1 with clockIdx := s1.clockIdx + 1 }
    let diff := toInt32 (sub32 next now)
    if diff > toInt32 (TIMER_MIN_TRY_TICKS freq) then
      .returned next s2
    else if timer_is_before tru now then
      force_defer freq env next s2
    else
      match spin_wait env next spinFuel diff s2 with
      | none => .outOfFuel s2
      | some s3 => dispatch_loop freq env tru fuel1 spinFuel s3

/-- C `timer_dispatch_many()`: reads `timer_repeat_until` once into the
local `tru`, then runs the dispatch loop. -/
def timer_dispatch_many (freq : Nat) (env : Env) (fuel spinFuel : Nat)
    (s : TimerState) : DispatchResult :=
  dispatch_loop freq env s.timer_repeat_until fuel spinFuel s

/-- Environment of one `timer_task` invocation: the value `timer_get_next`
reports, the first `timer_read_time` reading (`cur`), and the
`timer_read_time` reading taken after `irq_wait` returns. -/
structure TaskEnv where
  next : Nat
  cur : Nat
  post_sleep : Nat

/-- Observable outcome of one `timer_task` invocation: the new value of
the static `last_timer`, the new `timer_repeat_until`, how many times
`irq_wait` was invoked, and the argument passed to `stats_note_sleep`
(`none` when it was not called). -/
structure TaskResult where
  last_timer : Nat
  timer_repeat_until : Nat
  irq_wait_calls : Nat
  sleep_noted : Option Nat
deriving Repr, DecidableEq

/-- C `timer_task()`: compare the cached `last_timer` with the deadline
`timer_get_next` reports.  If they differ, boost `timer_repeat_until`
from the just-read `cur` and cache the new deadline without sleeping;
otherwise sleep via `irq_wait`, re-read the time, boost
`timer_repeat_until` from that reading, and report the slept ticks. -/
def timer_task (freq : Nat) (env : TaskEnv)
    (last_timer timer_repeat_until : Nat) : TaskResult :=
  let lst := last_timer
  let next := mod32 env.next
  let cur := mod32 env.cur
  if lst ≠ next then
    { last_timer := next
      timer_repeat_until := add32 cur (TIMER_IDLE_REPEAT_TICKS freq)
      irq_wait_calls := 0
      sleep_noted := none }
  else
    let post_sleep := mod32 env.post_sleep
    { last_timer := lst
      timer_repeat_until := add32 post_sleep (TIMER_IDLE_REPEAT_TICKS freq)
      irq_wait_calls := 1
      sleep_noted := some (sub32 post_sleep cur) }

/-- Concrete environment for witnesses: the queue always reports deadline
0 while the clock reads 100000 (deadline far in the past). -/
def envPast : Env := ⟨fun _ => 0, fun _ => 100000⟩

/-- Concrete environment for witnesses: the queue always reports deadline
90000 while the clock reads 100000 (deadline in the recent past, within
the 1 ms tolerance at 16 MHz). -/
def envNear : Env := ⟨fun _ => 90000, fun _ => 100000⟩

/-- Concrete environment for witnesses: the queue reports deadline 200000
while the clock reads 100000 (deadline far in the future). -/
def envFuture : Env := ⟨fun _ => 200000, fun _ => 100000⟩

/-- A normal return value `v` of a dispatch run with final state `s1` is
sound with respect to the most recent clock reading of its return path
(the `clockIdx - 1`-th reading): either it exceeds that reading by more
than `TIMER_MIN_TRY_TICKS` in signed 32-bit distance (return-to-hardware
exit), or it is exactly that reading plus `TIMER_DEFER_REPEAT_TICKS`
(forced-defer exit). -/
def goodReturn (freq : Nat) (env : Env) (v : Nat) (s1 : TimerState) : Prop :=
  0 < s1.clockIdx ∧
    (toInt32 (TIMER_MIN_TRY_TICKS freq) <
        toInt32 (sub32 v (mod32 (env.clock (s1.clockIdx - 1)))) ∨
      v = add32 (mod32 (env.clock (s1.clockIdx - 1)))
        (TIMER_DEFER_REPEAT_TICKS freq))

/-- Arithmetic characterisation of `timer_is_before`: the signed
reinterpretation of a 32-bit difference is negative exactly when the
wrapped difference lands in the upper half of the 32-bit range. -/
theorem timer_is_before_iff (a b : Nat) :
    timer_is_before a b = true ↔ U32HALF ≤ sub32 a b := by
  simp only [timer_is_before, toInt32, sub32, U32MOD, U32HALF,
    decide_eq_true_eq]
  split <;> omega

theorem sub32_lt (a b : Nat) : sub32 a b < U32MOD :=
  Nat.mod_lt _ (by decide)

/-- C5: for 32-bit tick values `a` and `b` whose separation is below
`2^31` ticks (formalised: one of the two wrapped differences is below
`2^31`), `timer_is_before` is asymmetric — `timer_is_before a b`
equals the negation of `timer_is_before b a` whenever `a ≠ b` — and it
is irreflexive: `timer_is_before a a = false`. -/
theorem timer_is_before_asymm_irrefl (a b : Nat)
    (ha : a < U32MOD) (hb : b < U32MOD) (hne : a ≠ b)
    (hsep : sub32 a b < U32HALF ∨ sub32 b a < U32HALF) :
    timer_is_before a b = !timer_is_before b a ∧
      timer_is_before a a = false := by
  have ha1 : a < 4294967296 := ha
  have hb1 : b < 4294967296 := hb
  have h1 := timer_is_before_iff a b
  have h2 := timer_is_before_iff b a
  have h3 := timer_is_before_iff a a
  have hsum : sub32 a b + sub32 b a = 4294967296 := by
    simp only [sub32, U32MOD]
    omega
  have h0 : sub32 a a = 0 := by
    simp only [sub32, U32MOD]
    omega
  constructor
  · cases hab : timer_is_before a b <;> cases hba : timer_is_before b a
    · exfalso
      rw [hab] at h1
      rw [hba] at h2
      simp only [Bool.false_eq_true, false_iff, not_le] at h1 h2
      simp only [U32HALF, U32MOD] at h1 h2 hsum
      omega
    · rfl
    · rfl
    · exfalso
      rw [hab] at h1
      rw [hba] at h2
      have hx := h1.mp rfl
      have hy := h2.mp rfl
      simp only [U32HALF, U32MOD] at hx hy hsum hsep
      rcases hsep with hs | hs <;> omega
  · cases haa : timer_is_before a a
    · rfl
    · exfalso
      rw [haa] at h3
      have := h3.mp rfl
      simp only [U32HALF] at this
      omega

/-- Witness for C5 at the wraparound pair `a = 0xFFFFFFF0`, `b = 0x10`. -/
theorem timer_is_before_asymm_irrefl_witness :
    timer_is_before 4294967280 16 = !timer_is_before 16 4294967280 ∧
      timer_is_before 4294967280 4294967280 = false :=
  timer_is_before_asymm_irrefl 4294967280 16 (by decide) (by decide)
    (by decide) (by decide)

/-- C7: `timer_from_us` is linear under 32-bit modular arithmetic: for
every `k` and `us`, `timer_from_us (k * us)` (the argument computed in
`uint32_t`) equals `k * timer_from_us us` computed in `uint32_t`.  The
instance `k = 2` is the spec statement
`timer_from_us (2 * us) = 2 * timer_from_us us`. -/
theorem timer_from_us_linear (freq k us : Nat) :
    timer_from_us freq (mod32 (k * us)) = mod32 (k * timer_from_us freq us) := by
  simp only [timer_from_us, mod32]
  rw [Nat.mod_mul_mod, Nat.mul_mod_mod, Nat.mul_assoc]

/-- C10: after every invocation of `timer_task`, the cached static
`last_timer` equals the value `timer_get_next` returned during that
invocation — the changed-deadline branch writes it explicitly, and the
sleep branch leaves it unwritten in a state where it already equals that
value. -/
theorem timer_task_last_timer_invariant (freq : Nat) (env : TaskEnv)
    (last_timer timer_repeat_until : Nat) :
    (timer_task freq env last_timer timer_repeat_until).last_timer =
      mod32 env.next := by
  simp only [timer_task]
  split <;> simp_all

/-- C6: `timer_task` sleeps (invokes `irq_wait` exactly once) precisely
when the deadline reported by `timer_get_next` equals the cached
`last_timer`; when the deadline differs it does not sleep and caches the
new deadline; in both branches `timer_repeat_until` is set to a freshly
read current time plus `TIMER_IDLE_REPEAT_TICKS` (the post-sleep reading
in the sleep branch, the pre-branch reading `cur` otherwise). -/
theorem timer_task_idle_spec (freq : Nat) (env : TaskEnv)
    (last_timer timer_repeat_until : Nat) :
    (last_timer = mod32 env.next →
      timer_task freq env last_timer timer_repeat_until =
        { last_timer := last_timer
          timer_repeat_until :=
            add32 (mod32 env.post_sleep) (TIMER_IDLE_REPEAT_TICKS freq)
          irq_wait_calls := 1
          sleep_noted := some (sub32 (mod32 env.post_sleep) (mod32 env.cur)) }) ∧
    (last_timer ≠ mod32 env.next →
      timer_task freq env last_timer timer_repeat_until =
        { last_timer := mod32 env.next
          timer_repeat_until :=
            add32 (mod32 env.cur) (TIMER_IDLE_REPEAT_TICKS freq)
          irq_wait_calls := 0
          sleep_noted := none }) := by
  constructor <;> intro h <;> simp [timer_task, h]

/-- Witness for C6: a stagnant deadline (10 = cached 10) sleeps once; a
changed deadline (11 ≠ cached 10) does not sleep and re-caches. -/
theorem timer_task_idle_spec_witness :
    timer_task 16000000 ⟨10, 20, 30⟩ 10 0 =
      { last_timer := 10
        timer_repeat_until := add32 30 (TIMER_IDLE_REPEAT_TICKS 16000000)
        irq_wait_calls := 1
        sleep_noted := some (sub32 30 20) } ∧
    timer_task 16000000 ⟨11, 20, 30⟩ 10 0 =
      { last_timer := 11
        timer_repeat_until := add32 20 (TIMER_IDLE_REPEAT_TICKS 16000000)
        irq_wait_calls := 0
        sleep_noted := none } :=
  ⟨(timer_task_idle_spec 16000000 ⟨10, 20, 30⟩ 10 0).1 (by decide),
   (timer_task_idle_spec 16000000 ⟨11, 20, 30⟩ 10 0).2 (by decide)⟩

/-- C3: when the first queue dispatch reports a deadline whose signed
32-bit distance from the immediately following clock reading exceeds
`TIMER_MIN_TRY_TICKS`, `timer_dispatch_many` returns that deadline after a
single loop iteration: the final `schedIdx` is the initial one plus 1, so
`sched_timer_dispatch` was invoked exactly once. -/
theorem dispatch_many_future_deadline (freq : Nat) (env : Env)
    (fuel spinFuel : Nat) (s : TimerState)
    (h : toInt32 (TIMER_MIN_TRY_TICKS freq) <
      toInt32 (sub32 (mod32 (env.sched s.schedIdx))
        (mod32 (env.clock s.clockIdx)))) :
    timer_dispatch_many freq env (fuel + 1) spinFuel s =
      .returned (mod32 (env.sched s.schedIdx))
        ⟨s.timer_repeat_until, s.schedIdx + 1, s.clockIdx + 1⟩ := by
  simp [timer_dispatch_many, dispatch_loop, h]

/-- Witness for C3: deadline 200000 against clock 100000 at 16 MHz. -/
theorem dispatch_many_future_deadline_witness :
    timer_dispatch_many 16000000 envFuture 1 0 ⟨0, 0, 0⟩ =
      .returned 200000 ⟨0, 1, 1⟩ :=
  dispatch_many_future_deadline 16000000 envFuture 0 0 ⟨0, 0, 0⟩ (by decide)

/-- C1: when the dispatch loop reaches the starvation-exit branch (the
dispatched deadline is not beyond the minimum-try threshold and the
repeat window has expired at the loop's clock reading) and the deadline
is more than `timer_from_us 1000` ticks in the past relative to the time
read inside `force_defer`, `timer_dispatch_many` terminates with the
`shutdown` outcome carrying the reason "Rescheduled timer in the past".
`shutdown` is terminal in the model, so it is invoked exactly once and no
value is returned normally; the final state shows `timer_repeat_until`
untouched. -/
theorem dispatch_many_fatal (freq : Nat) (env : Env)
    (fuel spinFuel : Nat) (s : TimerState)
    (h1 : toInt32 (sub32 (mod32 (env.sched s.schedIdx))
        (mod32 (env.clock s.clockIdx))) ≤ toInt32 (TIMER_MIN_TRY_TICKS freq))
    (h2 : timer_is_before s.timer_repeat_until
        (mod32 (env.clock s.clockIdx)) = true)
    (h3 : timer_is_before
        (add32 (mod32 (env.sched s.schedIdx)) (timer_from_us freq 1000))
        (mod32 (env.clock (s.clockIdx + 1))) = true) :
    timer_dispatch_many freq env (fuel + 1) spinFuel s =
      .shutdown "Rescheduled timer in the past"
        ⟨s.timer_repeat_until, s.schedIdx + 1, s.clockIdx + 2⟩ := by
  simp [timer_dispatch_many, dispatch_loop, force_defer, h2, h3,
    not_lt.mpr h1]

/-- Witness for C1: deadline 0 against clock 100000 at 16 MHz (more than
the 16000-tick 1 ms tolerance in the past), with the repeat window
expired. -/
theorem dispatch_many_fatal_witness :
    timer_dispatch_many 16000000 envPast 1 0 ⟨0, 0, 0⟩ =
      .shutdown "Rescheduled timer in the past" ⟨0, 1, 2⟩ :=
  dispatch_many_fatal 16000000 envPast 0 0 ⟨0, 0, 0⟩ (by decide) (by decide)
    (by decide)

/-- C8: error atomicity of `force_defer`.  When the fatal check fires,
the run ends in `shutdown` with `timer_repeat_until` unchanged (the
shutdown happens before any write to it); `timer_repeat_until` is written
— to `now + TIMER_REPEAT_TICKS` — only on the normal-return path. -/
theorem force_defer_atomicity (freq : Nat) (env : Env) (next : Nat)
    (s : TimerState) :
    (timer_is_before (add32 next (timer_from_us freq 1000))
        (mod32 (env.clock s.clockIdx)) = true →
      force_defer freq env next s =
        .shutdown "Rescheduled timer in the past"
          ⟨s.timer_repeat_until, s.schedIdx, s.clockIdx + 1⟩) ∧
    (timer_is_before (add32 next (timer_from_us freq 1000))
        (mod32 (env.clock s.clockIdx)) = false →
      force_defer freq env next s =
        .returned
          (add32 (mod32 (env.clock s.clockIdx)) (TIMER_DEFER_REPEAT_TICKS freq))
          ⟨add32 (mod32 (env.clock s.clockIdx)) (TIMER_REPEAT_TICKS freq),
           s.schedIdx, s.clockIdx + 1⟩) := by
  constructor <;> intro h <;> simp [force_defer, h]

/-- Witness for C8: the fatal path at deadline 0 / clock 100000 leaves
`timer_repeat_until` at its entry value 7; the normal path at deadline
90000 / clock 100000 re-arms it. -/
theorem force_defer_atomicity_witness :
    force_defer 16000000 envPast 0 ⟨7, 0, 0⟩ =
      .shutdown "Rescheduled timer in the past" ⟨7, 0, 1⟩ ∧
    force_defer 16000000 envNear 90000 ⟨7, 0, 0⟩ =
      .returned 100080 ⟨101600, 0, 1⟩ :=
  ⟨(force_defer_atomicity 16000000 envPast 0 ⟨7, 0, 0⟩).1 (by decide),
   (force_defer_atomicity 16000000 envNear 90000 ⟨7, 0, 0⟩).2 (by decide)⟩

theorem sub32_add32_cancel (n a b : Nat) :
    sub32 (add32 n a) (add32 n b) = sub32 a b := by
  simp only [sub32, add32, U32MOD]
  have h1 : (n + b) % 4294967296 % 4294967296 = (n + b) % 4294967296 := by
    omega
  rw [h1]
  zify [show (n + b) % 4294967296 ≤ 4294967296 by omega,
    show b % 4294967296 ≤ 4294967296 by omega]
  omega

theorem sub32_self_add (n d : Nat) : sub32 n (add32 n d) = sub32 0 d := by
  simp only [sub32, add32, U32MOD]
  have h1 : (n + d) % 4294967296 % 4294967296 = (n + d) % 4294967296 := by
    omega
  rw [h1]
  zify [show (n + d) % 4294967296 ≤ 4294967296 by omega,
    show d % 4294967296 ≤ 4294967296 by omega]
  omega

theorem timer_is_before_self_add (n d : Nat) (hd1 : 0 < d)
    (hd2 : d ≤ U32HALF) : timer_is_before n (add32 n d) = true := by
  rw [timer_is_before_iff, sub32_self_add]
  simp only [sub32, U32MOD, U32HALF] at hd2 ⊢
  have hd : d % 4294967296 = d := by omega
  rw [hd, Nat.zero_add, Nat.mod_eq_of_lt (by omega)]
  omega

/-- C9: whenever `force_defer` returns normally and the build-time clock
frequency is at least 1 MHz (and fits in `uint32_t`, as
`CONFIG_CLOCK_FREQ` does), the returned hardware deadline
`now + TIMER_DEFER_REPEAT_TICKS` is strictly before (per
`timer_is_before`) the freshly written
`timer_repeat_until = now + TIMER_REPEAT_TICKS`, because
`timer_from_us 5 < timer_from_us 100`. -/
theorem force_defer_return_before_repeat (freq : Nat) (env : Env)
    (next : Nat) (s : TimerState) (v : Nat) (s1 : TimerState)
    (hf1 : 1000000 ≤ freq) (hf2 : freq < U32MOD)
    (h : force_defer freq env next s = .returned v s1) :
    timer_is_before v s1.timer_repeat_until = true := by
  have hf3 : freq < 4294967296 := hf2
  rw [timer_is_before_iff]
  simp only [force_defer] at h
  split at h
  · exact absurd h (by simp)
  · simp only [DispatchResult.returned.injEq] at h
    obtain ⟨hv, hs⟩ := h
    subst hv
    subst hs
    simp only [sub32, add32, mod32, TIMER_DEFER_REPEAT_TICKS,
      TIMER_REPEAT_TICKS, timer_from_us, U32HALF, U32MOD]
    have hd : freq / 1000000 ≤ 4294 := by omega
    have hd1 : 1 ≤ freq / 1000000 := by omega
    have h5 : 5 * (freq / 1000000) % 4294967296 = 5 * (freq / 1000000) :=
      Nat.mod_eq_of_lt (by omega)
    have h100 : 100 * (freq / 1000000) % 4294967296 = 100 * (freq / 1000000) :=
      Nat.mod_eq_of_lt (by omega)
    rw [h5, h100]
    generalize hg : env.clock s.clockIdx % 4294967296 = n2
    have hn : n2 < 4294967296 := by
      rw [← hg]
      exact Nat.mod_lt _ (by decide)
    generalize hc : freq / 1000000 = c
    rw [hc] at hd hd1
    have h1 : (n2 + 100*c) % 4294967296 % 4294967296 =
        (n2 + 100*c) % 4294967296 := by
      omega
    rw [h1]
    rcases Nat.lt_or_ge (n2 + 100*c) 4294967296 with hcase | hcase
    · have e5 : (n2 + 5*c) % 4294967296 = n2 + 5*c := Nat.mod_eq_of_lt (by omega)
      have e100 : (n2 + 100*c) % 4294967296 = n2 + 100*c := Nat.mod_eq_of_lt hcase
      rw [e5, e100]
      have e2 : n2 + 5*c + (4294967296 - (n2 + 100*c)) = 4294967296 - 95*c := by
        omega
      rw [e2, Nat.mod_eq_of_lt (by omega)]
      omega
    · rcases Nat.lt_or_ge (n2 + 5*c) 4294967296 with hcase2 | hcase2
      · have e5 : (n2 + 5*c) % 4294967296 = n2 + 5*c := Nat.mod_eq_of_lt hcase2
        have e100 : (n2 + 100*c) % 4294967296 = n2 + 100*c - 4294967296 := by
          omega
        rw [e5, e100]
        have e2 : n2 + 5*c + (4294967296 - (n2 + 100*c - 4294967296)) =
            4294967296 + (4294967296 - 95*c) := by omega
        rw [e2, Nat.add_mod_left, Nat.mod_eq_of_lt (by omega)]
        omega
      · have e5 : (n2 + 5*c) % 4294967296 = n2 + 5*c - 4294967296 := by omega
        have e100 : (n2 + 100*c) % 4294967296 = n2 + 100*c - 4294967296 := by
          omega
        rw [e5, e100]
        have e2 : n2 + 5*c - 4294967296 +
            (4294967296 - (n2 + 100*c - 4294967296)) = 4294967296 - 95*c := by
          omega
        rw [e2, Nat.mod_eq_of_lt (by omega)]
        omega

/-- Witness for C9 at 16 MHz: the defer deadline 100080 precedes the
re-armed window 101600. -/
theorem force_defer_return_before_repeat_witness :
    timer_is_before 100080 (TimerState.mk 101600 0 1).timer_repeat_until =
      true :=
  force_defer_return_before_repeat 16000000 envNear 90000 ⟨7, 0, 0⟩
    100080 ⟨101600, 0, 1⟩ (by decide) (by decide) (by decide)

/-- C2: when the first dispatched deadline is at or before the current
time (non-positive signed difference), the repeat window has expired at
entry, and the deadline is within the 1 ms fatal tolerance at the clock
reading inside `force_defer`, `timer_dispatch_many` takes the forced-defer
path: it sets `timer_repeat_until` to `now + TIMER_REPEAT_TICKS` and
returns `now + TIMER_DEFER_REPEAT_TICKS` (with `now` the reading taken
inside `force_defer`), a value strictly between `now` and
`now + TIMER_DEFER_REPEAT_TICKS + 1` per `timer_is_before`.  The
frequency hypotheses state that `CONFIG_CLOCK_FREQ` is a `uint32_t`
constant of at least 1 MHz. -/
theorem dispatch_many_starvation (freq : Nat) (env : Env)
    (fuel spinFuel : Nat) (s : TimerState)
    (hf1 : 1000000 ≤ freq) (hf2 : freq < U32MOD)
    (h1 : toInt32 (sub32 (mod32 (env.sched s.schedIdx))
        (mod32 (env.clock s.clockIdx))) ≤ 0)
    (h2 : timer_is_before s.timer_repeat_until
        (mod32 (env.clock s.clockIdx)) = true)
    (h3 : timer_is_before
        (add32 (mod32 (env.sched s.schedIdx)) (timer_from_us freq 1000))
        (mod32 (env.clock (s.clockIdx + 1))) = false) :
    timer_dispatch_many freq env (fuel + 1) spinFuel s =
      .returned
        (add32 (mod32 (env.clock (s.clockIdx + 1)))
          (TIMER_DEFER_REPEAT_TICKS freq))
        ⟨add32 (mod32 (env.clock (s.clockIdx + 1))) (TIMER_REPEAT_TICKS freq),
         s.schedIdx + 1, s.clockIdx + 2⟩ ∧
      timer_is_before (mod32 (env.clock (s.clockIdx + 1)))
        (add32 (mod32 (env.clock (s.clockIdx + 1)))
          (TIMER_DEFER_REPEAT_TICKS freq)) = true ∧
      timer_is_before
        (add32 (mod32 (env.clock (s.clockIdx + 1)))
          (TIMER_DEFER_REPEAT_TICKS freq))
        (add32 (mod32 (env.clock (s.clockIdx + 1)))
          (TIMER_DEFER_REPEAT_TICKS freq + 1)) = true := by
  have hf3 : freq < 4294967296 := hf2
  have hc1 : 1 ≤ freq / 1000000 := by omega
  have hc2 : freq / 1000000 ≤ 4294 := by omega
  have hD : TIMER_DEFER_REPEAT_TICKS freq = 5 * (freq / 1000000) := by
    simp only [TIMER_DEFER_REPEAT_TICKS, timer_from_us, U32MOD]
    exact Nat.mod_eq_of_lt (by omega)
  have hmin0 : 0 ≤ toInt32 (TIMER_MIN_TRY_TICKS freq) := by
    simp only [toInt32, TIMER_MIN_TRY_TICKS, timer_from_us, U32MOD, U32HALF]
    split <;> omega
  refine ⟨?_, ?_, ?_⟩
  · simp [timer_dispatch_many, dispatch_loop, force_defer, h2, h3,
      not_lt.mpr (le_trans h1 hmin0)]
  · exact timer_is_before_self_add _ _ (by omega)
      (by simp only [U32HALF]; omega)
  · rw [timer_is_before_iff, sub32_add32_cancel]
    simp only [sub32, U32MOD, U32HALF]
    have hm : (TIMER_DEFER_REPEAT_TICKS freq + 1) % 4294967296 =
        TIMER_DEFER_REPEAT_TICKS freq + 1 := Nat.mod_eq_of_lt (by omega)
    rw [hm]
    have e2 : TIMER_DEFER_REPEAT_TICKS freq +
        (4294967296 - (TIMER_DEFER_REPEAT_TICKS freq + 1)) = 4294967295 := by
      omega
    rw [e2]
    omega

/-- Witness for C2: deadline 90000 against clock 100000 at 16 MHz (10000
ticks in the past, within the 16000-tick tolerance), repeat window
expired at entry. -/
theorem dispatch_many_starvation_witness :
    timer_dispatch_many 16000000 envNear 1 0 ⟨0, 0, 0⟩ =
      .returned 100080 ⟨101600, 1, 2⟩ ∧
    timer_is_before 100000 100080 = true ∧
    timer_is_before 100080 100081 = true :=
  dispatch_many_starvation 16000000 envNear 0 0 ⟨0, 0, 0⟩ (by decide)
    (by decide) (by decide) (by decide) (by decide)

theorem dispatch_loop_good (freq : Nat) (env : Env) (tru : Nat) :
    ∀ (fuel spinFuel : Nat) (s : TimerState) (v : Nat) (s1 : TimerState),
      dispatch_loop freq env tru fuel spinFuel s = .returned v s1 →
      goodReturn freq env v s1 := by
  intro fuel
  induction fuel with
  | zero =>
    intro spinFuel s v s1 h
    simp [dispatch_loop] at h
  | succ fuel1 ih =>
    intro spinFuel s v s1 h
    simp only [dispatch_loop] at h
    split at h
    · rename_i hcond
      simp only [DispatchResult.returned.injEq] at h
      obtain ⟨hv, hs⟩ := h
      subst hv
      subst hs
      unfold goodReturn
      refine ⟨by simp, Or.inl ?_⟩
      simpa using hcond
    · split at h
      · simp only [force_defer] at h
        split at h
        · simp at h
        · simp only [DispatchResult.returned.injEq] at h
          obtain ⟨hv, hs⟩ := h
          subst hv
          subst hs
          unfold goodReturn
          refine ⟨by simp, Or.inr ?_⟩
          simp
      · split at h
        · simp at h
        · exact ih _ _ _ _ h

/-- C4: every execution of `timer_dispatch_many` that returns normally
returns a deadline that is not chronologically before the most recent
clock reading of its return path: at the return-to-hardware exit the
returned `next` exceeds the reading of that iteration by more than
`TIMER_MIN_TRY_TICKS` (which is positive for a `uint32_t`
`CONFIG_CLOCK_FREQ` of at least 1 MHz), and at the forced-defer exit the
returned value is the `force_defer` reading plus
`TIMER_DEFER_REPEAT_TICKS`. -/
theorem dispatch_many_return_after_now (freq : Nat) (env : Env)
    (fuel spinFuel : Nat) (s : TimerState) (v : Nat) (s1 : TimerState)
    (hf1 : 1000000 ≤ freq) (hf2 : freq < U32MOD)
    (h : timer_dispatch_many freq env fuel spinFuel s = .returned v s1) :
    0 < toInt32 (TIMER_MIN_TRY_TICKS freq) ∧ goodReturn freq env v s1 := by
  have hf3 : freq < 4294967296 := hf2
  refine ⟨?_,
    dispatch_loop_good freq env s.timer_repeat_until fuel spinFuel s v s1 h⟩
  simp only [toInt32, TIMER_MIN_TRY_TICKS, timer_from_us, U32MOD, U32HALF]
  split <;> omega

/-- Witness for C4: the future-deadline run at 16 MHz returns 200000
after a single iteration whose clock reading was 100000. -/
theorem dispatch_many_return_after_now_witness :
    0 < toInt32 (TIMER_MIN_TRY_TICKS 16000000) ∧
      goodReturn 16000000 envFuture 200000 ⟨0, 1, 1⟩ :=
  dispatch_many_return_after_now 16000000 envFuture 1 0 ⟨0, 0, 0⟩ 200000
    ⟨0, 1, 1⟩ (by decide) (by decide) (by decide)
